import Mathlib

/-!
# librunc: specification loading, process validation and factory resolution

A shallow embedding of `librunc.go`.  Go values of interface type `error` are
`Option GoError` (`none` is `nil`), Go pointers are `Option`, and a function
that can hit a nil-pointer dereference returns a `Run`, which is either the
returned values or a runtime panic.  Everything the Go code asks of the host
(the file system, the JSON decoder, SELinux, systemd, Intel RDT, the search
path and the libcontainer constructor) is a field of `Host`.
-/

namespace Librunc

/-! ## Go runtime values -/

/-- A Go `error` value: its message and what `os.IsNotExist` answers on it. -/
structure GoError where
  Error : String
  IsNotExist : Bool
deriving DecidableEq, Repr

/-- The error built by `fmt.Errorf` from an already formatted message. -/
def Errorf (msg : String) : GoError :=
  { Error := msg, IsNotExist := false }

/-- Outcome of running a Go function: it returns, or the runtime panics. -/
inductive Run (α : Type) where
  | ret (v : α)
  | panic (msg : String)
deriving DecidableEq, Repr

/-- The runtime error raised by reading a field through a nil pointer. -/
def nilDereference : String :=
  "runtime error: invalid memory address or nil pointer dereference"

/-- Behaviour of `strings.HasPrefix` on the characters of the two strings. -/
def HasPrefix (s pre : String) : Bool :=
  pre.data.isPrefixOf s.data

/-- Behaviour of `filepath.IsAbs` on Linux: the path starts with a slash. -/
def IsAbs (path : String) : Bool :=
  HasPrefix path "/"

/-! ## Data model (`specs-go`) -/

/-- The fields of `specs.Process` (the process section of a specification). -/
structure Process where
  Terminal : Bool
  Args : List String
  Env : List String
  Cwd : String
  NoNewPrivileges : Bool
  ApparmorProfile : String
  SelinuxLabel : String
deriving DecidableEq, Repr

/-- The fields of `specs.Spec`; `Process` is a pointer and may be nil. -/
structure Spec where
  Version : String
  Process : Option Process
  Hostname : String
deriving DecidableEq, Repr

/-! ## Data model (`libcontainer`) -/

/-- The cgroup manager options of libcontainer that `loadFactory` chooses from. -/
inductive CgroupManager where
  | Cgroupfs
  | RootlessCgroupfs
  | SystemdCgroups
deriving DecidableEq, Repr

/-- The Intel RDT manager option of libcontainer. -/
inductive IntelRdtManager where
  | IntelRdtFs
deriving DecidableEq, Repr

/-- The arguments of one call of `libcontainer.New`. -/
structure NewArgs where
  root : String
  cgroupManager : CgroupManager
  intelRdtManager : Option IntelRdtManager
  CriuPath : String
  NewuidmapPath : String
  NewgidmapPath : String
deriving DecidableEq, Repr

/-- A handle on a factory built by the container engine. -/
structure Factory where
  handle : Nat
deriving DecidableEq, Repr

/-! ## The host -/

/-- What the host answers to each query `librunc.go` makes. -/
structure Host where
  /-- Answer of `selinux.GetEnabled()`. -/
  GetEnabled : Bool
  /-- Answer of `os.Open`: the content of the file, or the open error. -/
  Open : String → Except GoError String
  /-- Answer of `json.NewDecoder(cf).Decode(&spec)` on a file content: the
  pointer stored in `spec` (nil for the JSON literal null), or the error. -/
  Decode : String → Except GoError (Option Spec)
  /-- Answer of `filepath.Abs`. -/
  Abs : String → Except GoError String
  /-- Answer of `systemd.UseSystemd()`. -/
  UseSystemd : Bool
  /-- Answer of `intelrdt.IsCatEnabled()`. -/
  IsCatEnabled : Bool
  /-- Answer of `intelrdt.IsMbaEnabled()`. -/
  IsMbaEnabled : Bool
  /-- Answer of `exec.LookPath`. -/
  LookPath : String → Except GoError String
  /-- Answer of `libcontainer.New`. -/
  New : NewArgs → Option Factory × Option GoError

/-! ## `validateProcessSpec` -/

/-- Embedding of `validateProcessSpec`; the argument is a pointer. -/
def validateProcessSpec (h : Host) (spec : Option Process) : Run (Option GoError) :=
  match spec with
  | none => Run.panic nilDereference
  | some p =>
    if p.Cwd = "" then
      Run.ret (some (Errorf "Cwd property must not be empty"))
    else if !IsAbs p.Cwd then
      Run.ret (some (Errorf "Cwd must be an absolute path"))
    else if p.Args.length = 0 then
      Run.ret (some (Errorf "args must not be empty"))
    else if p.SelinuxLabel ≠ "" && !h.GetEnabled then
      Run.ret (some (Errorf
        "selinux label is specified in config, but selinux is disabled or not supported"))
    else
      Run.ret none

/-! ## `loadSpecs` -/

/-- Embedding of `loadSpecs`: the returned pair is `(spec, err)`.  The deferred
`cf.Close()` does not change what is returned and is left out. -/
def loadSpecs (h : Host) (cPath : String) : Run (Option Spec × Option GoError) :=
  match h.Open cPath with
  | Except.error err =>
    if err.IsNotExist then
      Run.ret (none, some (Errorf ("JSON specification file " ++ cPath ++ " not found")))
    else
      Run.ret (none, some err)
  | Except.ok cf =>
    match h.Decode cf with
    | Except.error err => Run.ret (none, some err)
    | Except.ok spec =>
      match spec with
      | none => Run.panic nilDereference
      | some s =>
        match validateProcessSpec h s.Process with
        | Run.panic msg => Run.panic msg
        | Run.ret err => Run.ret (spec, err)

/-! ## `revisePidFile` -/

/-- Embedding of `revisePidFile`. -/
def revisePidFile (h : Host) (pidFile : String) : String × Option GoError :=
  if pidFile = "" then
    ("", none)
  else
    match h.Abs pidFile with
    | Except.ok abs => (abs, none)
    | Except.error err => ("", some err)

/-! ## `loadFactory` -/

/-- What a run of `loadFactory` returns, with the calls of `libcontainer.New`
it made, in order. -/
structure FactoryRun where
  result : Option Factory × Option GoError
  newCalls : List NewArgs
deriving DecidableEq, Repr

/-- Path kept for a helper binary: the empty string when the lookup fails. -/
def lookPathOrEmpty (h : Host) (name : String) : String :=
  match h.LookPath name with
  | Except.ok p => p
  | Except.error _ => ""

/-- Embedding of `loadFactory`. -/
def loadFactory (h : Host) (root : String) (rootless : Bool) (systemd_cgroup : Bool)
    (criu : String) : FactoryRun :=
  match h.Abs root with
  | Except.error err => { result := (none, some err), newCalls := [] }
  | Except.ok abs =>
    -- the statements after the systemd block, run with the manager chosen so far
    let rest : CgroupManager → FactoryRun := fun cgroupManager =>
      let intelRdtManager := some IntelRdtManager.IntelRdtFs
      let intelRdtManager :=
        if !h.IsCatEnabled && !h.IsMbaEnabled then none else intelRdtManager
      let newuidmap := lookPathOrEmpty h "newuidmap"
      let newgidmap := lookPathOrEmpty h "newgidmap"
      let args : NewArgs :=
        { root := abs, cgroupManager := cgroupManager, intelRdtManager := intelRdtManager,
          CriuPath := criu, NewuidmapPath := newuidmap, NewgidmapPath := newgidmap }
      { result := h.New args, newCalls := [args] }
    let cgroupManager := CgroupManager.Cgroupfs
    let cgroupManager := if rootless then CgroupManager.RootlessCgroupfs else cgroupManager
    if systemd_cgroup then
      if h.UseSystemd then
        rest CgroupManager.SystemdCgroups
      else
        { result := (none, some (Errorf
            "systemd cgroup flag passed, but systemd support for managing cgroups is not available")),
          newCalls := [] }
    else
      rest cgroupManager

/-! ## Sample hosts and files -/

/-- The open error of a path that does not exist. -/
def enoent (path : String) : GoError :=
  { Error := "open " ++ path ++ ": no such file or directory", IsNotExist := true }

/-- The open error of a path the process may not read. -/
def eacces (path : String) : GoError :=
  { Error := "open " ++ path ++ ": permission denied", IsNotExist := false }

/-- The decode error of a truncated document. -/
def unexpectedEOF : GoError :=
  { Error := "unexpected EOF", IsNotExist := false }

/-- A process section with the given working directory, arguments and label. -/
def sampleProcess (cwd : String) (args : List String) (label : String) : Process :=
  { Terminal := false, Args := args, Env := [], Cwd := cwd, NoNewPrivileges := false,
    ApparmorProfile := "", SelinuxLabel := label }

/-- A specification with the given process pointer and zero-valued other fields. -/
def sampleSpec (process : Option Process) : Spec :=
  { Version := "", Process := process, Hostname := "" }

/-- Content of `config.json`: a process with cwd "/" and args ["/bin/true"]. -/
def validDoc : String :=
  "\x7b\"process\":\x7b\"args\":[\"/bin/true\"],\"cwd\":\"/\"\x7d\x7d"

/-- Content of `nocwd.json`: a process section whose cwd is the empty string. -/
def noCwdDoc : String :=
  "\x7b\"process\":\x7b\"args\":[\"/bin/true\"],\"cwd\":\"\"\x7d\x7d"

/-- Content of `empty.json`: an object with no process section. -/
def emptyDoc : String :=
  "\x7b\x7d"

/-- Content of `null.json`: the JSON literal null. -/
def nullDoc : String :=
  "null"

/-- Content of `broken.json`: a truncated object. -/
def brokenDoc : String :=
  "\x7b"

/-- A host with five files and the given SELinux and systemd status; `secret.json`
cannot be read and every other path does not exist. -/
def sampleHost (selinuxEnabled useSystemd : Bool) : Host :=
  { GetEnabled := selinuxEnabled
    Open := fun path =>
      if path = "config.json" then Except.ok validDoc
      else if path = "nocwd.json" then Except.ok noCwdDoc
      else if path = "empty.json" then Except.ok emptyDoc
      else if path = "null.json" then Except.ok nullDoc
      else if path = "broken.json" then Except.ok brokenDoc
      else if path = "secret.json" then Except.error (eacces path)
      else Except.error (enoent path)
    Decode := fun content =>
      if content = validDoc then
        Except.ok (some (sampleSpec (some (sampleProcess "/" ["/bin/true"] ""))))
      else if content = noCwdDoc then
        Except.ok (some (sampleSpec (some (sampleProcess "" ["/bin/true"] ""))))
      else if content = emptyDoc then Except.ok (some (sampleSpec none))
      else if content = nullDoc then Except.ok none
      else Except.error unexpectedEOF
    Abs := fun path => Except.ok (if IsAbs path then path else "/work/" ++ path)
    UseSystemd := useSystemd
    IsCatEnabled := false
    IsMbaEnabled := false
    LookPath := fun name =>
      if name = "newuidmap" then Except.ok "/usr/bin/newuidmap"
      else Except.error (Errorf "executable file not found in $PATH")
    New := fun _ => (some { handle := 0 }, none) }

/-! ## Process validation -/

/-- C1 as stated fails: for an empty working directory the message of the error
is not "Cwd must not be empty". -/
theorem c1_message_differs :
    ¬ ∀ (h : Host) (p : Process), p.Cwd = "" →
      ∃ e, validateProcessSpec h (some p) = Run.ret (some e) ∧
        e.Error = "Cwd must not be empty" := by
  intro hall
  obtain ⟨e, he, hmsg⟩ := hall (sampleHost true true) (sampleProcess "" ["/bin/true"] "") rfl
  simp [validateProcessSpec, sampleProcess, Errorf] at he
  subst he
  simp at hmsg

/-- C1 (amended): every ProcessSpec with an empty working directory fails
validation with the error "Cwd property must not be empty", whatever its
arguments, its label and the host are. -/
theorem validateProcessSpec_empty_cwd (h : Host) (p : Process) (hcwd : p.Cwd = "") :
    validateProcessSpec h (some p) =
      Run.ret (some (Errorf "Cwd property must not be empty")) := by
  simp [validateProcessSpec, hcwd]

/-- Witness of C1: empty cwd, no arguments and a label, SELinux disabled. -/
theorem validateProcessSpec_empty_cwd_witness :
    (sampleProcess "" [] "system_u:object_r:container_t").Cwd = "" ∧
    validateProcessSpec (sampleHost false false)
        (some (sampleProcess "" [] "system_u:object_r:container_t")) =
      Run.ret (some (Errorf "Cwd property must not be empty")) :=
  ⟨rfl, validateProcessSpec_empty_cwd _ _ rfl⟩

/-- C2: a non-empty working directory that does not start with a slash fails
validation with the absolute-path error, which is neither the args error nor
the label error, whatever the arguments, the label and the host are. -/
theorem validateProcessSpec_relative_cwd (h : Host) (p : Process)
    (hne : p.Cwd ≠ "") (hrel : IsAbs p.Cwd = false) :
    validateProcessSpec h (some p) = Run.ret (some (Errorf "Cwd must be an absolute path")) ∧
    validateProcessSpec h (some p) ≠ Run.ret (some (Errorf "args must not be empty")) ∧
    validateProcessSpec h (some p) ≠ Run.ret (some (Errorf
      "selinux label is specified in config, but selinux is disabled or not supported")) := by
  have hv : validateProcessSpec h (some p) =
      Run.ret (some (Errorf "Cwd must be an absolute path")) := by
    simp [validateProcessSpec, hne, hrel]
  rw [hv]
  refine ⟨rfl, ?_, ?_⟩ <;> simp [Errorf]

/-- Witness of C2: "rel/path" with no arguments and a label, SELinux disabled. -/
theorem validateProcessSpec_relative_cwd_witness :
    validateProcessSpec (sampleHost false false)
        (some (sampleProcess "rel/path" [] "system_u:object_r:container_t")) =
      Run.ret (some (Errorf "Cwd must be an absolute path")) :=
  (validateProcessSpec_relative_cwd (sampleHost false false)
    (sampleProcess "rel/path" [] "system_u:object_r:container_t")
    (by decide) (by decide)).1

/-- C3: an absolute working directory with an empty argument vector fails
validation with the error "args must not be empty", whatever the label and the
SELinux status of the host are. -/
theorem validateProcessSpec_empty_args (h : Host) (p : Process)
    (habs : IsAbs p.Cwd = true) (hargs : p.Args = []) :
    validateProcessSpec h (some p) = Run.ret (some (Errorf "args must not be empty")) := by
  have hne : p.Cwd ≠ "" := by
    intro hc
    rw [hc] at habs
    exact absurd habs (by decide)
  simp [validateProcessSpec, hne, habs, hargs]

/-- Witness of C3: cwd "/", no arguments, a label, SELinux disabled. -/
theorem validateProcessSpec_empty_args_witness :
    validateProcessSpec (sampleHost false false)
        (some (sampleProcess "/" [] "system_u:object_r:container_t")) =
      Run.ret (some (Errorf "args must not be empty")) :=
  validateProcessSpec_empty_args (sampleHost false false)
    (sampleProcess "/" [] "system_u:object_r:container_t") (by decide) rfl

/-- C4: with an absolute working directory, a non-empty argument vector and a
non-empty label, validation returns an error exactly when the host reports
SELinux disabled, and returns nil when it reports SELinux enabled. -/
theorem validateProcessSpec_label (h : Host) (p : Process)
    (habs : IsAbs p.Cwd = true) (hargs : p.Args ≠ []) (hlabel : p.SelinuxLabel ≠ "") :
    (h.GetEnabled = false →
      validateProcessSpec h (some p) = Run.ret (some (Errorf
        "selinux label is specified in config, but selinux is disabled or not supported"))) ∧
    (h.GetEnabled = true → validateProcessSpec h (some p) = Run.ret none) ∧
    ((∃ e, validateProcessSpec h (some p) = Run.ret (some e)) ↔ h.GetEnabled = false) := by
  have hne : p.Cwd ≠ "" := by
    intro hc
    rw [hc] at habs
    exact absurd habs (by decide)
  cases hen : h.GetEnabled <;>
    simp [validateProcessSpec, hne, habs, hargs, hlabel, hen]

/-- Witness of C4: the same labelled process on a host without and with SELinux. -/
theorem validateProcessSpec_label_witness :
    validateProcessSpec (sampleHost false false)
        (some (sampleProcess "/" ["/bin/true"] "system_u:object_r:container_t")) =
      Run.ret (some (Errorf
        "selinux label is specified in config, but selinux is disabled or not supported")) ∧
    validateProcessSpec (sampleHost true false)
        (some (sampleProcess "/" ["/bin/true"] "system_u:object_r:container_t")) =
      Run.ret none :=
  ⟨(validateProcessSpec_label (sampleHost false false)
      (sampleProcess "/" ["/bin/true"] "system_u:object_r:container_t")
      (by decide) (by decide) (by decide)).1 rfl,
   (validateProcessSpec_label (sampleHost true false)
      (sampleProcess "/" ["/bin/true"] "system_u:object_r:container_t")
      (by decide) (by decide) (by decide)).2.1 rfl⟩

/-- C5: an absolute working directory, a non-empty argument vector and no label
pass validation on every host; in particular cwd "/" with args ["/bin/true"]
and an empty label passes whether SELinux is enabled or not. -/
theorem validateProcessSpec_pass (h : Host) (p : Process)
    (habs : IsAbs p.Cwd = true) (hargs : p.Args ≠ []) (hlabel : p.SelinuxLabel = "") :
    validateProcessSpec h (some p) = Run.ret none ∧
    ∀ (h₀ : Host) (p₀ : Process), p₀.Cwd = "/" → p₀.Args = ["/bin/true"] →
      p₀.SelinuxLabel = "" → validateProcessSpec h₀ (some p₀) = Run.ret none := by
  have hne : p.Cwd ≠ "" := by
    intro hc
    rw [hc] at habs
    exact absurd habs (by decide)
  refine ⟨by simp [validateProcessSpec, hne, habs, hargs, hlabel], ?_⟩
  intro h₀ p₀ hc ha hl
  have hroot : IsAbs "/" = true := by decide
  simp [validateProcessSpec, hc, ha, hl, hroot]

/-- Witness of C5: cwd "/usr" with three arguments on a host without SELinux. -/
theorem validateProcessSpec_pass_witness :
    validateProcessSpec (sampleHost false true)
      (some (sampleProcess "/usr" ["sh", "-c", "true"] "")) = Run.ret none :=
  (validateProcessSpec_pass (sampleHost false true)
    (sampleProcess "/usr" ["sh", "-c", "true"] "") (by decide) (by decide) rfl).1

/-! ## Loading a specification -/

/-- C6 as stated fails: `loadSpecs` can return a non-nil Specification whose
ProcessSpec does not pass validation (together with the validation error). -/
theorem c6_returns_spec_with_error :
    ¬ ∀ (h : Host) (cPath : String) (s : Spec) (err : Option GoError),
      loadSpecs h cPath = Run.ret (some s, err) →
        validateProcessSpec h s.Process = Run.ret none := by
  intro hall
  have hrun : loadSpecs (sampleHost true true) "nocwd.json" =
      Run.ret (some (sampleSpec (some (sampleProcess "" ["/bin/true"] ""))),
        some (Errorf "Cwd property must not be empty")) := by decide
  have hval := hall _ _ _ _ hrun
  revert hval
  decide

/-- C6 (amended): whenever `loadSpecs` returns a nil error, the Specification
it returns is non-nil and its ProcessSpec passes validation; and when the
deserialized ProcessSpec fails validation, `loadSpecs` returns that validation
error, with the deserialized Specification beside it. -/
theorem loadSpecs_validated (h : Host) (cPath : String) :
    (∀ spec, loadSpecs h cPath = Run.ret (spec, none) →
      ∃ s, spec = some s ∧ validateProcessSpec h s.Process = Run.ret none) ∧
    (∀ cf s err, h.Open cPath = Except.ok cf → h.Decode cf = Except.ok (some s) →
      validateProcessSpec h s.Process = Run.ret (some err) →
        loadSpecs h cPath = Run.ret (some s, some err)) := by
  constructor
  · intro spec hrun
    unfold loadSpecs at hrun
    cases hopen : h.Open cPath with
    | error e =>
      rw [hopen] at hrun
      by_cases hne : e.IsNotExist = true <;> simp [hne] at hrun
    | ok cf =>
      rw [hopen] at hrun
      cases hdec : h.Decode cf with
      | error e => simp [hdec] at hrun
      | ok sp =>
        cases sp with
        | none => simp [hdec] at hrun
        | some s =>
          cases hval : validateProcessSpec h s.Process with
          | panic msg => simp [hdec, hval] at hrun
          | ret err =>
            simp [hdec, hval] at hrun
            obtain ⟨hs, he⟩ := hrun
            subst he
            exact ⟨s, hs.symm, hval⟩
  · intro cf s err hopen hdec hval
    simp [loadSpecs, hopen, hdec, hval]

/-- Witness of C6 (amended): `config.json` loads with a nil error and a validated
Specification; `nocwd.json` returns the validation error. -/
theorem loadSpecs_validated_witness :
    (∃ s, some (sampleSpec (some (sampleProcess "/" ["/bin/true"] ""))) = some s ∧
      validateProcessSpec (sampleHost false false) s.Process = Run.ret none) ∧
    loadSpecs (sampleHost false false) "nocwd.json" =
      Run.ret (some (sampleSpec (some (sampleProcess "" ["/bin/true"] ""))),
        some (Errorf "Cwd property must not be empty")) :=
  ⟨(loadSpecs_validated (sampleHost false false) "config.json").1 _ (by decide),
   (loadSpecs_validated (sampleHost false false) "nocwd.json").2 noCwdDoc
      (sampleSpec (some (sampleProcess "" ["/bin/true"] "")))
      (Errorf "Cwd property must not be empty") rfl rfl rfl⟩

/-- C7: when opening the path reports that it does not exist, `loadSpecs`
returns no Specification and the error "JSON specification file <path> not
found" with that path; on any other open failure it returns the open error; on
content that cannot be decoded it returns the decode error and no Specification. -/
theorem loadSpecs_failures (h : Host) (cPath : String) :
    (∀ e, h.Open cPath = Except.error e → e.IsNotExist = true →
      loadSpecs h cPath =
        Run.ret (none, some (Errorf ("JSON specification file " ++ cPath ++ " not found")))) ∧
    (∀ e, h.Open cPath = Except.error e → e.IsNotExist = false →
      loadSpecs h cPath = Run.ret (none, some e)) ∧
    (∀ cf e, h.Open cPath = Except.ok cf → h.Decode cf = Except.error e →
      loadSpecs h cPath = Run.ret (none, some e)) := by
  refine ⟨?_, ?_, ?_⟩
  · intro e hopen hne
    simp [loadSpecs, hopen, hne]
  · intro e hopen hne
    simp [loadSpecs, hopen, hne]
  · intro cf e hopen hdec
    simp [loadSpecs, hopen, hdec]

/-- Witness of C7: a missing file, an unreadable file and a truncated document. -/
theorem loadSpecs_failures_witness :
    loadSpecs (sampleHost true true) "missing.json" =
      Run.ret (none, some (Errorf "JSON specification file missing.json not found")) ∧
    loadSpecs (sampleHost true true) "secret.json" =
      Run.ret (none, some (eacces "secret.json")) ∧
    loadSpecs (sampleHost true true) "broken.json" = Run.ret (none, some unexpectedEOF) :=
  ⟨(loadSpecs_failures (sampleHost true true) "missing.json").1 (enoent "missing.json")
      rfl rfl,
   (loadSpecs_failures (sampleHost true true) "secret.json").2.1 (eacces "secret.json")
      rfl rfl,
   (loadSpecs_failures (sampleHost true true) "broken.json").2.2 brokenDoc unexpectedEOF
      rfl rfl⟩

/-- C10 fails on the code: a document that decodes without error to a Specification
with no process section, or to a nil Specification, makes `loadSpecs` panic on a
nil-pointer dereference instead of returning. -/
theorem loadSpecs_nil_panics (h : Host) (cPath cf : String)
    (hopen : h.Open cPath = Except.ok cf)
    (hdec : h.Decode cf = Except.ok none ∨
      ∃ s, h.Decode cf = Except.ok (some s) ∧ s.Process = none) :
    loadSpecs h cPath = Run.panic nilDereference := by
  rcases hdec with hnil | ⟨s, hs, hproc⟩
  · simp [loadSpecs, hopen, hnil]
  · simp [loadSpecs, hopen, hs, hproc, validateProcessSpec]

/-- Witness of C10: the documents "{}" and "null". -/
theorem loadSpecs_nil_panics_witness :
    loadSpecs (sampleHost true true) "empty.json" = Run.panic nilDereference ∧
    loadSpecs (sampleHost true true) "null.json" = Run.panic nilDereference :=
  ⟨loadSpecs_nil_panics (sampleHost true true) "empty.json" emptyDoc rfl
      (Or.inr ⟨sampleSpec none, rfl, rfl⟩),
   loadSpecs_nil_panics (sampleHost true true) "null.json" nullDoc rfl
      (Or.inl rfl)⟩

/-! ## Resolving the factory -/

/-- C8: when the root resolves to an absolute path, the systemd cgroup flag is
passed and the host reports no systemd support, `loadFactory` returns the error
"systemd cgroup flag passed, but systemd support for managing cgroups is not
available" for both values of the rootless flag, and `libcontainer.New` is not
called. -/
theorem loadFactory_systemd_unsupported (h : Host) (root abs criu : String) (rootless : Bool)
    (habs : h.Abs root = Except.ok abs) (hsys : h.UseSystemd = false) :
    (loadFactory h root rootless true criu).result = (none, some (Errorf
      "systemd cgroup flag passed, but systemd support for managing cgroups is not available")) ∧
    (loadFactory h root rootless true criu).newCalls = [] := by
  simp [loadFactory, habs, hsys]

/-- Witness of C8: a rootless request on a host without systemd support. -/
theorem loadFactory_systemd_unsupported_witness :
    (loadFactory (sampleHost true false) "state" true true "criu").result = (none, some (Errorf
      "systemd cgroup flag passed, but systemd support for managing cgroups is not available")) ∧
    (loadFactory (sampleHost true false) "state" true true "criu").newCalls = [] :=
  loadFactory_systemd_unsupported (sampleHost true false) "state" "/work/state" "criu" true
    rfl rfl

/-- C9: every call of `libcontainer.New` made by `loadFactory` passes the cgroup
manager fixed by the two flags: systemd when the systemd flag is passed (the
host then supports it), else rootless cgroupfs when rootless is passed, else
cgroupfs.  The constructor is reached whenever the root resolves and the systemd
flag, if passed, is supported; rootless together with a supported systemd flag
reaches it with the systemd manager. -/
theorem loadFactory_cgroupManager (h : Host) (root criu : String)
    (rootless systemd_cgroup : Bool) :
    (∀ args, args ∈ (loadFactory h root rootless systemd_cgroup criu).newCalls →
      args.cgroupManager =
        (if systemd_cgroup then CgroupManager.SystemdCgroups
         else if rootless then CgroupManager.RootlessCgroupfs
         else CgroupManager.Cgroupfs) ∧
      (systemd_cgroup = true → h.UseSystemd = true)) ∧
    (∀ abs, h.Abs root = Except.ok abs → (systemd_cgroup = true → h.UseSystemd = true) →
      ∃ args, (loadFactory h root rootless systemd_cgroup criu).newCalls = [args] ∧
        (loadFactory h root rootless systemd_cgroup criu).result = h.New args ∧
        args.cgroupManager =
          (if systemd_cgroup then CgroupManager.SystemdCgroups
           else if rootless then CgroupManager.RootlessCgroupfs
           else CgroupManager.Cgroupfs)) := by
  constructor
  · intro args hmem
    unfold loadFactory at hmem
    cases habs : h.Abs root with
    | error e => simp [habs] at hmem
    | ok abs =>
      cases systemd_cgroup <;> cases rootless <;> cases hsys : h.UseSystemd <;>
        simp [habs, hsys] at hmem <;> simp [hmem]
  · intro abs habs hsup
    cases systemd_cgroup <;> cases rootless <;> cases hsys : h.UseSystemd <;>
      simp [hsys] at hsup <;> simp [loadFactory, habs, hsys]

/-- Witness of C9: rootless together with the systemd flag on a host with systemd
support reaches the constructor once, with the systemd manager. -/
theorem loadFactory_cgroupManager_witness :
    ∃ args, (loadFactory (sampleHost true true) "state" true true "criu").newCalls = [args] ∧
      (loadFactory (sampleHost true true) "state" true true "criu").result =
        (sampleHost true true).New args ∧
      args.cgroupManager =
        (if true = true then CgroupManager.SystemdCgroups
         else if true = true then CgroupManager.RootlessCgroupfs
         else CgroupManager.Cgroupfs) :=
  (loadFactory_cgroupManager (sampleHost true true) "state" "criu" true true).2
    "/work/state" rfl (fun _ => rfl)

end Librunc
